import Mathlib

/-!
Verification of the `TextToSpeechPipeline` adapter
(`src/transformers/pipelines/text_to_speech.py`).

The pipeline is orchestration glue: it resolves a sampling rate and a
vocoder at construction, prepares per-model-family inputs, and forwards
them to an external generation backend.  We embed the adapter's control
flow shallowly: Python dictionaries become association lists over an
inductive value type `Val` (with `Val.vNone` playing the role of both
`None` and an absent key, matching the source's uniform use of
`dict.get(key, None)`), and the external collaborators (vocoder loader,
input processor, dataset loader, generation backend) become function
parameters.
-/

namespace TTS

/-- Python values as the adapter observes them: `None`, numbers, strings,
and sequences/tensors (observed only via `len`, indexing and equality). -/
inductive Val where
  | vNone : Val
  | vInt : Int → Val
  | vStr : String → Val
  | vTensor : List Val → Val
deriving Repr

mutual

/-- Equality of `Val` is decidable (written by hand because the nested
`List Val` defeats the derive handler). -/
def Val.decEq : (a b : Val) → Decidable (a = b)
  | .vNone, .vNone => .isTrue rfl
  | .vNone, .vInt _ => .isFalse (fun h => Val.noConfusion h)
  | .vNone, .vStr _ => .isFalse (fun h => Val.noConfusion h)
  | .vNone, .vTensor _ => .isFalse (fun h => Val.noConfusion h)
  | .vInt _, .vNone => .isFalse (fun h => Val.noConfusion h)
  | .vInt m, .vInt n =>
      if h : m = n then .isTrue (by rw [h])
      else .isFalse (fun hh => h (Val.vInt.inj hh))
  | .vInt _, .vStr _ => .isFalse (fun h => Val.noConfusion h)
  | .vInt _, .vTensor _ => .isFalse (fun h => Val.noConfusion h)
  | .vStr _, .vNone => .isFalse (fun h => Val.noConfusion h)
  | .vStr _, .vInt _ => .isFalse (fun h => Val.noConfusion h)
  | .vStr s, .vStr t =>
      if h : s = t then .isTrue (by rw [h])
      else .isFalse (fun hh => h (Val.vStr.inj hh))
  | .vStr _, .vTensor _ => .isFalse (fun h => Val.noConfusion h)
  | .vTensor _, .vNone => .isFalse (fun h => Val.noConfusion h)
  | .vTensor _, .vInt _ => .isFalse (fun h => Val.noConfusion h)
  | .vTensor _, .vStr _ => .isFalse (fun h => Val.noConfusion h)
  | .vTensor xs, .vTensor ys =>
      match Val.decEqList xs ys with
      | .isTrue h => .isTrue (by rw [h])
      | .isFalse h => .isFalse (fun hh => h (Val.vTensor.inj hh))

/-- Decidable equality of lists of `Val`, by mutual recursion. -/
def Val.decEqList : (xs ys : List Val) → Decidable (xs = ys)
  | [], [] => .isTrue rfl
  | [], _ :: _ => .isFalse (fun h => List.noConfusion h)
  | _ :: _, [] => .isFalse (fun h => List.noConfusion h)
  | x :: xs, y :: ys =>
      match Val.decEq x y with
      | .isFalse h => .isFalse (fun hh => h (List.cons.inj hh).1)
      | .isTrue h1 =>
          match Val.decEqList xs ys with
          | .isTrue h2 => .isTrue (by rw [h1, h2])
          | .isFalse h2 => .isFalse (fun hh => h2 (List.cons.inj hh).2)

end

instance : DecidableEq Val := Val.decEq

/-- A Python dict as an association list (first occurrence of a key wins
on lookup; `dictSet` overwrites in place like `d[k] = v`). -/
abbrev Dict := List (String × Val)

/-- `d.get(k, None)`: the value under `k`, or `vNone` when absent. -/
def dictGet : Dict → String → Val
  | [], _ => .vNone
  | (k', v) :: rest, k => if k' == k then v else dictGet rest k

/-- `d[k] = v`: replace the first binding of `k`, or append a new one. -/
def dictSet : Dict → String → Val → Dict
  | [], k, v => [(k, v)]
  | (k', v') :: rest, k, v =>
      if k' == k then (k, v) :: rest else (k', v') :: dictSet rest k v

/-- `k in d` for a Python dict. -/
def dictHasKey : Dict → String → Bool
  | [], _ => false
  | (k', _) :: rest, k => k' == k || dictHasKey rest k

/-- `d.update(g)`: write every binding of `g` into `d`, in order. -/
def dictUpdate (d g : Dict) : Dict :=
  g.foldl (fun acc kv => dictSet acc kv.1 kv.2) d

/-- `len(v)` for the tensor-shaped values the adapter measures. -/
def vLen : Val → Nat
  | .vTensor xs => xs.length
  | _ => 0

/-- `v[0]` on a non-empty sequence. -/
def vFirst : Val → Val
  | .vTensor (x :: _) => x
  | _ => .vNone

/-- Source: `ONLY_ONE_SPEAKER_EMBEDDINGS_LIST = ["bark"]`. -/
def ONLY_ONE_SPEAKER_EMBEDDINGS_LIST : List String := ["bark"]

/-- Source: `SPEAKER_EMBEDDINGS_KEY_MAPPING = {"bark": "history_prompt"}`. -/
def SPEAKER_EMBEDDINGS_KEY_MAPPING : List (String × String) :=
  [("bark", "history_prompt")]

/-- `m.get(k, d)` on a string-to-string dict. -/
def lookupKeyD (m : List (String × String)) (k d : String) : String :=
  match m.find? (fun p => p.1 == k) with
  | some p => p.2
  | none => d

/-- The configuration attached to a `SpeechT5HifiGan` vocoder. -/
structure HifiGanConfig where
  sampling_rate : Int
deriving Repr, DecidableEq

/-- A resolved `SpeechT5HifiGan` vocoder instance. -/
structure SpeechT5HifiGan where
  config : HifiGanConfig
deriving Repr, DecidableEq

/-- The `vocoder` constructor argument: `None`, a repo-id string, a valid
`SpeechT5HifiGan` instance, or any other (invalid) object. -/
inductive VocoderArg where
  | vocNone : VocoderArg
  | vocStr : String → VocoderArg
  | vocGan : SpeechT5HifiGan → VocoderArg
  | vocOther : VocoderArg
deriving Repr, DecidableEq

/-- The backend model's static configuration: its `model_type` tag and the
dictionary produced by `config.to_dict()`. -/
structure ModelConfig where
  model_type : String
  configDict : Dict
deriving Repr, DecidableEq

/-- The generation backend handle as `__init__` inspects it: static config
plus the optional `generation_config` (already as a dict). -/
structure Model where
  config : ModelConfig
  generation_config : Option Dict
deriving Repr, DecidableEq

/-- The adapter state fixed at construction. -/
structure TextToSpeechPipeline where
  framework : String
  model_type : String
  is_speecht5 : Bool
  only_one_speaker_embeddings : Bool
  processor : Val
  vocoder : VocoderArg
  sampling_rate : Val
deriving Repr, DecidableEq

/-- The static config updated by the generation config, when one exists
(`config.update(gen_config.to_dict())`). -/
def mergedConfig (model : Model) : Dict :=
  match model.generation_config with
  | some gen_config => dictUpdate model.config.configDict gen_config
  | none => model.config.configDict

/-- The sampling-rate lookup loop of `__init__`:
`for sampling_rate_name in ["sample_rate", "sampling_rate"]` assigns
`self.sampling_rate` on every non-`None` hit — there is no `break`, so a
later hit overwrites an earlier one. -/
def resolveSamplingRate (config : Dict) : Val :=
  ["sample_rate", "sampling_rate"].foldl
    (fun current sampling_rate_name =>
      match dictGet config sampling_rate_name with
      | .vNone => current
      | v => v)
    Val.vNone

/-- `TextToSpeechPipeline.__init__`.  `from_pretrained` models
`SpeechT5HifiGan.from_pretrained` (an external loader); `.error` models a
raised `ValueError`. -/
def ttsInit (from_pretrained : String → SpeechT5HifiGan) (framework : String)
    (model : Model) (vocoder : VocoderArg) (processor : Val)
    (sampling_rate : Val) (sample_rate_name : Val) :
    Except String TextToSpeechPipeline :=
  if framework == "tf" then
    .error "The TextToSpeechPipeline is only available in PyTorch."
  else
    let model_type := model.config.model_type
    let is_speecht5 := model_type == "speecht5"
    let only_one_speaker_embeddings :=
      ONLY_ONE_SPEAKER_EMBEDDINGS_LIST.contains model_type
    if is_speecht5 then
      match vocoder with
      | .vocNone =>
          .error "vocoder is None but speecht5 is used. Try passing a repo_id or an instance of SpeechT5HifiGan."
      | .vocStr repo_id =>
          let gan := from_pretrained repo_id
          .ok { framework := framework, model_type := model_type,
                is_speecht5 := is_speecht5,
                only_one_speaker_embeddings := only_one_speaker_embeddings,
                processor := processor, vocoder := .vocGan gan,
                sampling_rate := .vInt gan.config.sampling_rate }
      | .vocGan gan =>
          .ok { framework := framework, model_type := model_type,
                is_speecht5 := is_speecht5,
                only_one_speaker_embeddings := only_one_speaker_embeddings,
                processor := processor, vocoder := .vocGan gan,
                sampling_rate := .vInt gan.config.sampling_rate }
      | .vocOther =>
          .error "Must pass a valid vocoder to the TTSPipeline if speecht5 is used. Try passing a repo_id or an instance of SpeechT5HifiGan."
    else
      let resolved :=
        if sampling_rate == Val.vNone then
          resolveSamplingRate (mergedConfig model)
        else sampling_rate
      .ok { framework := framework, model_type := model_type,
            is_speecht5 := is_speecht5,
            only_one_speaker_embeddings := only_one_speaker_embeddings,
            processor := processor, vocoder := vocoder,
            sampling_rate := resolved }

/-- `TextToSpeechPipeline.preprocess`.  `processorRun` models the external
input processor called on (text, keyword arguments); `load_dataset` models
`load_dataset(name, split)[index]`, yielding one record dict. -/
def preprocess (p : TextToSpeechPipeline)
    (processorRun : Val → Dict → Dict)
    (load_dataset : String → String → Nat → Dict)
    (text : Val) (speaker_embeddings : Val) (kwargs : Dict) : Dict :=
  if p.is_speecht5 then
    let inputs := processorRun text [("return_tensors", Val.vStr "pt")]
    let speaker_embeddings :=
      if speaker_embeddings == Val.vNone then
        Val.vTensor
          [dictGet (load_dataset "Matthijs/cmu-arctic-xvectors" "validation" 7305) "xvector"]
      else speaker_embeddings
    [("input_ids", dictGet inputs "input_ids"),
     ("speaker_embeddings", speaker_embeddings)]
  else
    let processor_args_dict : Dict := []
    let _ := lookupKeyD SPEAKER_EMBEDDINGS_KEY_MAPPING p.model_type "speaker_embeddings"
    let processor_args_dict :=
      if p.model_type == "bark" then
        dictSet processor_args_dict "voice_preset" speaker_embeddings
      else
        dictSet processor_args_dict "speaker_embeddings" speaker_embeddings
    processorRun text (processor_args_dict ++ kwargs)

/-- `TextToSpeechPipeline._forward`.  `generate_speech` and `generate`
model the backend's two generation entry points. -/
def forward (p : TextToSpeechPipeline)
    (generate_speech : Val → Val → VocoderArg → Val)
    (generate : Dict → Dict → Val)
    (model_inputs : Dict) (kwargs : Dict) : Val :=
  if p.is_speecht5 then
    let inputs := dictGet model_inputs "input_ids"
    let speaker_embeddings := dictGet model_inputs "speaker_embeddings"
    generate_speech inputs speaker_embeddings p.vocoder
  else
    let model_inputs :=
      if p.only_one_speaker_embeddings then
        let speaker_embeddings_key :=
          lookupKeyD SPEAKER_EMBEDDINGS_KEY_MAPPING p.model_type "speaker_embeddings"
        if 1 < vLen (dictGet model_inputs "input_ids") ∧
            dictGet model_inputs speaker_embeddings_key ≠ Val.vNone then
          dictSet model_inputs speaker_embeddings_key
            (vFirst (dictGet model_inputs speaker_embeddings_key))
        else model_inputs
      else model_inputs
    generate model_inputs kwargs

/-- `TextToSpeechPipeline._sanitize_parameters`: split the call's keyword
arguments into (preprocess, forward, postprocess) parameter dicts. -/
def sanitize_parameters (generate_kwargs : Dict) : Dict × Dict × Dict :=
  let preprocess_params :=
    dictSet [] "speaker_embeddings" (dictGet generate_kwargs "speaker_embeddings")
  let forward_params :=
    generate_kwargs.filter (fun kv => !(dictHasKey preprocess_params kv.1))
  let postprocess_params : Dict := []
  (preprocess_params, forward_params, postprocess_params)

/-- `TextToSpeechPipeline.postprocess`: the identity. -/
def postprocess (speech : Val) : Val := speech

/-! ### Dictionary lemmas -/

theorem strBeqComm (a b : String) : (a == b) = (b == a) := by
  by_cases h : a = b
  · subst h; rfl
  · rw [beq_eq_false_iff_ne.mpr h, beq_eq_false_iff_ne.mpr (Ne.symm h)]

theorem dictGet_dictSet_self (d : Dict) (k : String) (v : Val) :
    dictGet (dictSet d k v) k = v := by
  induction d with
  | nil => simp [dictSet, dictGet]
  | cons kv rest ih =>
      rcases kv with ⟨a, b⟩
      by_cases h : a = k
      · subst h; simp [dictSet, dictGet]
      · have hb : (a == k) = false := beq_eq_false_iff_ne.mpr h
        simp [dictSet, dictGet, hb, ih]

theorem dictGet_dictSet_ne (d : Dict) {k k' : String} (v : Val) (h : k' ≠ k) :
    dictGet (dictSet d k v) k' = dictGet d k' := by
  have hb : (k == k') = false := beq_eq_false_iff_ne.mpr (Ne.symm h)
  induction d with
  | nil => simp [dictSet, dictGet, hb]
  | cons kv rest ih =>
      rcases kv with ⟨a, b⟩
      by_cases ha : a = k
      · subst ha
        simp [dictSet, dictGet, hb]
      · have hab : (a == k) = false := beq_eq_false_iff_ne.mpr ha
        simp only [dictSet, hab, Bool.false_eq_true, if_false, dictGet]
        rw [ih]

theorem dictHasKey_iff_mem (d : Dict) (k : String) :
    dictHasKey d k = true ↔ k ∈ d.map Prod.fst := by
  induction d with
  | nil => simp [dictHasKey]
  | cons kv rest ih =>
      rcases kv with ⟨a, b⟩
      simp only [dictHasKey, Bool.or_eq_true, beq_iff_eq, ih, List.map_cons,
        List.mem_cons]
      constructor
      · rintro (h | h)
        · exact Or.inl h.symm
        · exact Or.inr h
      · rintro (h | h)
        · exact Or.inl h.symm
        · exact Or.inr h

theorem dictHasKey_of_dictGet_ne (d : Dict) (k : String)
    (h : dictGet d k ≠ .vNone) : dictHasKey d k = true := by
  induction d with
  | nil => simp [dictGet] at h
  | cons kv rest ih =>
      rcases kv with ⟨a, b⟩
      by_cases ha : (a == k) = true
      · simp [dictHasKey, ha]
      · simp only [dictGet, ha, Bool.false_eq_true, if_false] at h
        simp only [dictHasKey, Bool.or_eq_true]
        exact Or.inr (ih h)

theorem dictUpdate_nil (d : Dict) : dictUpdate d [] = d := rfl

theorem dictUpdate_cons (d : Dict) (a : String) (b : Val) (g : Dict) :
    dictUpdate d ((a, b) :: g) = dictUpdate (dictSet d a b) g := rfl

theorem dictGet_dictUpdate_of_not_hasKey (g : Dict) (d : Dict) (k : String)
    (h : dictHasKey g k = false) :
    dictGet (dictUpdate d g) k = dictGet d k := by
  induction g generalizing d with
  | nil => rfl
  | cons kv rest ih =>
      rcases kv with ⟨a, b⟩
      simp only [dictHasKey, Bool.or_eq_false_iff] at h
      rw [dictUpdate_cons, ih _ h.2,
        dictGet_dictSet_ne _ _ (Ne.symm (beq_eq_false_iff_ne.mp h.1))]

theorem dictGet_dictUpdate_of_hasKey (g : Dict) (d : Dict) (k : String)
    (hn : (g.map Prod.fst).Nodup) (h : dictHasKey g k = true) :
    dictGet (dictUpdate d g) k = dictGet g k := by
  induction g generalizing d with
  | nil => simp [dictHasKey] at h
  | cons kv rest ih =>
      rcases kv with ⟨a, b⟩
      rw [dictUpdate_cons]
      by_cases ha : a = k
      · subst ha
        have hmem : a ∉ rest.map Prod.fst :=
          (List.nodup_cons.mp (by simpa using hn)).1
        have hrest : dictHasKey rest a = false := by
          rw [← Bool.not_eq_true, dictHasKey_iff_mem]
          exact hmem
        rw [dictGet_dictUpdate_of_not_hasKey rest _ _ hrest,
          dictGet_dictSet_self]
        simp [dictGet]
      · have hb : (a == k) = false := beq_eq_false_iff_ne.mpr ha
        have hrest : dictHasKey rest k = true := by
          simpa [dictHasKey, hb] using h
        have hn' : (rest.map Prod.fst).Nodup :=
          (List.nodup_cons.mp (by simpa using hn)).2
        rw [ih _ hn' hrest]
        simp [dictGet, hb]

/-! ### Sampling-rate resolution lemmas -/

/-- When the merged config binds `"sampling_rate"` to a non-`None` value,
the loop's final assignment makes that value win, whatever `"sample_rate"`
held. -/
theorem resolveSamplingRate_eq_of_sampling_rate (c : Dict) {v : Val}
    (h : dictGet c "sampling_rate" = v) (hv : v ≠ .vNone) :
    resolveSamplingRate c = v := by
  simp only [resolveSamplingRate, List.foldl_cons, List.foldl_nil]
  rw [h]
  cases v with
  | vNone => exact absurd rfl hv
  | vInt n => rfl
  | vStr s => rfl
  | vTensor xs => rfl

/-- What `__init__` produces for a non-`speecht5` model on a supported
framework: no vocoder handling, sampling rate resolved from the merged
config when no explicit rate was given. -/
theorem ttsInit_not_speecht5 (from_pretrained : String → SpeechT5HifiGan)
    (framework : String) (model : Model) (vocoder : VocoderArg)
    (processor : Val) (sampling_rate sample_rate_name : Val)
    (hfw : framework ≠ "tf") (hmt : model.config.model_type ≠ "speecht5") :
    ttsInit from_pretrained framework model vocoder processor sampling_rate
        sample_rate_name =
      .ok { framework := framework, model_type := model.config.model_type,
            is_speecht5 := false,
            only_one_speaker_embeddings :=
              ONLY_ONE_SPEAKER_EMBEDDINGS_LIST.contains model.config.model_type,
            processor := processor, vocoder := vocoder,
            sampling_rate :=
              if sampling_rate == Val.vNone then
                resolveSamplingRate (mergedConfig model)
              else sampling_rate } := by
  have h1 : (framework == "tf") = false := beq_eq_false_iff_ne.mpr hfw
  have h2 : (model.config.model_type == "speecht5") = false :=
    beq_eq_false_iff_ne.mpr hmt
  simp [ttsInit, h1, h2]

/-! ### Claims -/

/-- C9: the `sample_rate_name` constructor argument is accepted but never
read, so two constructions differing only in it produce identical adapter
state. -/
theorem claim_C9 (from_pretrained : String → SpeechT5HifiGan)
    (framework : String) (model : Model) (vocoder : VocoderArg)
    (processor : Val) (sampling_rate : Val) (srn1 srn2 : Val) :
    ttsInit from_pretrained framework model vocoder processor sampling_rate srn1 =
    ttsInit from_pretrained framework model vocoder processor sampling_rate srn2 := rfl

/-- The concrete non-vocoder model configuration used to refute C2: both
rate keys are present in the static config, no generation config. -/
def vitsBothKeysModel : Model :=
  { config :=
      { model_type := "vits",
        configDict :=
          [("sample_rate", .vInt 22050), ("sampling_rate", .vInt 16000)] },
    generation_config := none }

/-- C2 fails on the code: the key-resolution loop has no `break`, so with
both `"sample_rate"` (22050) and `"sampling_rate"` (16000) present in the
merged config of a non-vocoder model, the resolved rate is 16000 — the
value under `"sampling_rate"`, the LAST key checked — not 22050 as the
claim ("first non-absent match wins") requires. -/
theorem claim_C2_counterexample :
    dictGet (mergedConfig vitsBothKeysModel) "sample_rate" = .vInt 22050
    ∧ dictGet (mergedConfig vitsBothKeysModel) "sampling_rate" = .vInt 16000
    ∧ Except.map (fun s => s.sampling_rate)
        (ttsInit (fun _ => { config := { sampling_rate := 0 } }) "pt"
          vitsBothKeysModel .vocNone .vNone .vNone .vNone) = .ok (.vInt 16000)
    ∧ Val.vInt 16000 ≠ Val.vInt 22050 := by
  refine ⟨rfl, rfl, rfl, ?_⟩
  decide

/-- C2 (amended): for a non-vocoder-dependent model with no explicit
sampling rate, when the merged configuration binds both `"sample_rate"`
and `"sampling_rate"` to non-absent values, the resolved sampling rate is
the value under `"sampling_rate"` — the last key checked wins, and
`"sample_rate"` is used only when `"sampling_rate"` is absent. -/
theorem claim_C2_amended (from_pretrained : String → SpeechT5HifiGan)
    (framework : String) (model : Model) (vocoder : VocoderArg)
    (processor : Val) (sample_rate_name : Val) (v : Val)
    (hfw : framework ≠ "tf") (hmt : model.config.model_type ≠ "speecht5")
    (hboth : dictGet (mergedConfig model) "sample_rate" ≠ .vNone)
    (h2 : dictGet (mergedConfig model) "sampling_rate" = v)
    (hv : v ≠ .vNone) :
    ∃ s, ttsInit from_pretrained framework model vocoder processor .vNone
          sample_rate_name = .ok s
      ∧ s.sampling_rate = v := by
  refine ⟨_, ttsInit_not_speecht5 from_pretrained framework model vocoder
    processor .vNone sample_rate_name hfw hmt, ?_⟩
  simpa using resolveSamplingRate_eq_of_sampling_rate _ h2 hv

theorem claim_C2_amended_witness :
    ∃ s, ttsInit (fun _ => { config := { sampling_rate := 0 } }) "pt"
          vitsBothKeysModel .vocNone .vNone .vNone .vNone = .ok s
      ∧ s.sampling_rate = .vInt 16000 :=
  claim_C2_amended (fun _ => { config := { sampling_rate := 0 } }) "pt"
    vitsBothKeysModel .vocNone .vNone .vNone (.vInt 16000)
    (by decide) (by decide) (by decide) rfl (by decide)

/-- C4: without an explicit rate and with a non-vocoder model, a
generation-config `sampling_rate` of 24000 overrides a static
`sampling_rate` of 16000 in the merged lookup; with no generation config
at all, the static 16000 is resolved. -/
theorem claim_C4 (from_pretrained : String → SpeechT5HifiGan)
    (framework : String) (model : Model) (vocoder : VocoderArg)
    (processor : Val) (sample_rate_name : Val)
    (hfw : framework ≠ "tf") (hmt : model.config.model_type ≠ "speecht5") :
    (∀ gen_config, model.generation_config = some gen_config →
        (gen_config.map Prod.fst).Nodup →
        dictGet model.config.configDict "sampling_rate" = .vInt 16000 →
        dictGet gen_config "sampling_rate" = .vInt 24000 →
        ∃ s, ttsInit from_pretrained framework model vocoder processor .vNone
              sample_rate_name = .ok s
          ∧ s.sampling_rate = .vInt 24000)
    ∧ (model.generation_config = none →
        dictGet model.config.configDict "sampling_rate" = .vInt 16000 →
        ∃ s, ttsInit from_pretrained framework model vocoder processor .vNone
              sample_rate_name = .ok s
          ∧ s.sampling_rate = .vInt 16000) := by
  constructor
  · intro gen_config hg hn hstatic hgen
    refine ⟨_, ttsInit_not_speecht5 from_pretrained framework model vocoder
      processor .vNone sample_rate_name hfw hmt, ?_⟩
    have hmerge : dictGet (mergedConfig model) "sampling_rate" = .vInt 24000 := by
      rw [mergedConfig, hg]
      rw [dictGet_dictUpdate_of_hasKey _ _ _ hn
        (dictHasKey_of_dictGet_ne _ _ (by rw [hgen]; decide))]
      exact hgen
    simpa using resolveSamplingRate_eq_of_sampling_rate _ hmerge (by decide)
  · intro hg hstatic
    refine ⟨_, ttsInit_not_speecht5 from_pretrained framework model vocoder
      processor .vNone sample_rate_name hfw hmt, ?_⟩
    have hmerge : dictGet (mergedConfig model) "sampling_rate" = .vInt 16000 := by
      rw [mergedConfig, hg]
      exact hstatic
    simpa using resolveSamplingRate_eq_of_sampling_rate _ hmerge (by decide)

/-- A concrete non-vocoder model whose static config carries
`sampling_rate: 16000` and whose generation config overrides it. -/
def musicgenOverrideModel : Model :=
  { config :=
      { model_type := "musicgen",
        configDict := [("sampling_rate", .vInt 16000)] },
    generation_config := some [("sampling_rate", .vInt 24000)] }

/-- The same model without any generation config. -/
def musicgenPlainModel : Model :=
  { config :=
      { model_type := "musicgen",
        configDict := [("sampling_rate", .vInt 16000)] },
    generation_config := none }

theorem claim_C4_witness :
    (∃ s, ttsInit (fun _ => { config := { sampling_rate := 0 } }) "pt"
          musicgenOverrideModel .vocNone .vNone .vNone .vNone = .ok s
      ∧ s.sampling_rate = .vInt 24000)
    ∧ (∃ s, ttsInit (fun _ => { config := { sampling_rate := 0 } }) "pt"
          musicgenPlainModel .vocNone .vNone .vNone .vNone = .ok s
      ∧ s.sampling_rate = .vInt 16000) :=
  ⟨(claim_C4 (fun _ => { config := { sampling_rate := 0 } }) "pt"
      musicgenOverrideModel .vocNone .vNone .vNone (by decide) (by decide)).1
      [("sampling_rate", .vInt 24000)] rfl (by simp) rfl rfl,
   (claim_C4 (fun _ => { config := { sampling_rate := 0 } }) "pt"
      musicgenPlainModel .vocNone .vNone .vNone (by decide) (by decide)).2 rfl rfl⟩

/-- A concrete `speecht5` backend model. -/
def speecht5Model : Model :=
  { config := { model_type := "speecht5", configDict := [] },
    generation_config := none }

/-- C3: with a `speecht5` model, construction errors when the vocoder
argument is `None` and when it is neither a string nor a `SpeechT5HifiGan`
instance; when it is a string, the vocoder is loaded by reference and
construction succeeds. -/
theorem claim_C3 (from_pretrained : String → SpeechT5HifiGan)
    (framework : String) (model : Model) (processor : Val)
    (sampling_rate sample_rate_name : Val)
    (hfw : framework ≠ "tf") (hmt : model.config.model_type = "speecht5") :
    (∃ e, ttsInit from_pretrained framework model .vocNone processor
        sampling_rate sample_rate_name = .error e)
    ∧ (∃ e, ttsInit from_pretrained framework model .vocOther processor
        sampling_rate sample_rate_name = .error e)
    ∧ (∀ repo_id, ∃ s,
        ttsInit from_pretrained framework model (.vocStr repo_id) processor
            sampling_rate sample_rate_name = .ok s
        ∧ s.vocoder = .vocGan (from_pretrained repo_id)) := by
  have h1 : (framework == "tf") = false := beq_eq_false_iff_ne.mpr hfw
  have h2 : (model.config.model_type == "speecht5") = true :=
    beq_iff_eq.mpr hmt
  have hNone : ttsInit from_pretrained framework model .vocNone processor
      sampling_rate sample_rate_name =
      .error "vocoder is None but speecht5 is used. Try passing a repo_id or an instance of SpeechT5HifiGan." := by
    simp [ttsInit, h1, h2]
  have hOther : ttsInit from_pretrained framework model .vocOther processor
      sampling_rate sample_rate_name =
      .error "Must pass a valid vocoder to the TTSPipeline if speecht5 is used. Try passing a repo_id or an instance of SpeechT5HifiGan." := by
    simp [ttsInit, h1, h2]
  refine ⟨⟨_, hNone⟩, ⟨_, hOther⟩, fun repo_id => ?_⟩
  simp [ttsInit, h1, h2]

theorem claim_C3_witness :
    ((∃ e, ttsInit (fun _ => { config := { sampling_rate := 16000 } }) "pt"
        speecht5Model .vocNone .vNone .vNone .vNone = .error e)
    ∧ (∃ e, ttsInit (fun _ => { config := { sampling_rate := 16000 } }) "pt"
        speecht5Model .vocOther .vNone .vNone .vNone = .error e)
    ∧ (∀ repo_id, ∃ s,
        ttsInit (fun _ => { config := { sampling_rate := 16000 } }) "pt"
            speecht5Model (.vocStr repo_id) .vNone .vNone .vNone = .ok s
        ∧ s.vocoder = .vocGan { config := { sampling_rate := 16000 } })) :=
  claim_C3 (fun _ => { config := { sampling_rate := 16000 } }) "pt"
    speecht5Model .vNone .vNone .vNone (by decide) rfl

/-- C8: with a `speecht5` model and a resolvable vocoder (an instance, or
a string loaded by reference), the resolved sampling rate is the vocoder's
configured rate, whatever the explicit `sampling_rate` argument and the
model's static and generation configurations hold. -/
theorem claim_C8 (from_pretrained : String → SpeechT5HifiGan)
    (framework : String) (model : Model) (processor : Val)
    (sampling_rate sample_rate_name : Val)
    (hfw : framework ≠ "tf") (hmt : model.config.model_type = "speecht5") :
    (∀ gan, ∃ s,
        ttsInit from_pretrained framework model (.vocGan gan) processor
            sampling_rate sample_rate_name = .ok s
        ∧ s.sampling_rate = .vInt gan.config.sampling_rate)
    ∧ (∀ repo_id, ∃ s,
        ttsInit from_pretrained framework model (.vocStr repo_id) processor
            sampling_rate sample_rate_name = .ok s
        ∧ s.sampling_rate = .vInt (from_pretrained repo_id).config.sampling_rate) := by
  have h1 : (framework == "tf") = false := beq_eq_false_iff_ne.mpr hfw
  have h2 : (model.config.model_type == "speecht5") = true :=
    beq_iff_eq.mpr hmt
  refine ⟨fun gan => ?_, fun repo_id => ?_⟩ <;>
    simp [ttsInit, h1, h2]

theorem claim_C8_witness :
    (∀ gan, ∃ s,
        ttsInit (fun _ => { config := { sampling_rate := 16000 } }) "pt"
            speecht5Model (.vocGan gan) .vNone (.vInt 999) .vNone = .ok s
        ∧ s.sampling_rate = .vInt gan.config.sampling_rate)
    ∧ (∀ repo_id, ∃ s,
        ttsInit (fun _ => { config := { sampling_rate := 16000 } }) "pt"
            speecht5Model (.vocStr repo_id) .vNone (.vInt 999) .vNone = .ok s
        ∧ s.sampling_rate = .vInt 16000) := by
  have h := claim_C8 (fun _ => { config := { sampling_rate := 16000 } }) "pt"
    speecht5Model .vNone (.vInt 999) .vNone (by decide) rfl
  exact ⟨h.1, fun repo_id => h.2 repo_id⟩

/-- A concrete `bark`-family adapter state, as `ttsInit` produces it for a
`bark` model on the pt framework. -/
def barkPipe : TextToSpeechPipeline :=
  { framework := "pt", model_type := "bark", is_speecht5 := false,
    only_one_speaker_embeddings := true, processor := .vNone,
    vocoder := .vocNone, sampling_rate := .vNone }

/-- C1: for a single-embedding-only (non-`speecht5`) family, `_forward`
narrows the conditioning value under the family's key to its first element
exactly when the tokenized batch has more than one row and the value is
present; a batch of one passes the inputs through unchanged. -/
theorem claim_C1 (p : TextToSpeechPipeline)
    (generate_speech : Val → Val → VocoderArg → Val)
    (generate : Dict → Dict → Val) (kwargs : Dict)
    (h5 : p.is_speecht5 = false)
    (h1 : p.only_one_speaker_embeddings = true) :
    (∀ (model_inputs : Dict) (ids : List Val) (x : Val) (rest : List Val),
        dictGet model_inputs "input_ids" = .vTensor ids →
        1 < ids.length →
        dictGet model_inputs
            (lookupKeyD SPEAKER_EMBEDDINGS_KEY_MAPPING p.model_type "speaker_embeddings")
          = .vTensor (x :: rest) →
        forward p generate_speech generate model_inputs kwargs =
            generate (dictSet model_inputs
                (lookupKeyD SPEAKER_EMBEDDINGS_KEY_MAPPING p.model_type "speaker_embeddings")
                x)
              kwargs
          ∧ dictGet (dictSet model_inputs
                (lookupKeyD SPEAKER_EMBEDDINGS_KEY_MAPPING p.model_type "speaker_embeddings")
                x)
              (lookupKeyD SPEAKER_EMBEDDINGS_KEY_MAPPING p.model_type "speaker_embeddings")
            = x)
    ∧ (∀ (model_inputs : Dict) (ids : List Val),
        dictGet model_inputs "input_ids" = .vTensor ids →
        ids.length = 1 →
        forward p generate_speech generate model_inputs kwargs =
          generate model_inputs kwargs) := by
  constructor
  · intro model_inputs ids x rest hids hlen hkey
    refine ⟨?_, dictGet_dictSet_self _ _ _⟩
    simp only [forward, h5, Bool.false_eq_true, if_false, h1, if_true, hids, hkey]
    rw [if_pos]
    · simp [vFirst]
    · exact ⟨by simpa [vLen] using hlen, fun hc => Val.noConfusion hc⟩
  · intro model_inputs ids hids hlen
    simp only [forward, h5, Bool.false_eq_true, if_false, h1, if_true, hids]
    rw [if_neg]
    rintro ⟨hlt, -⟩
    simp [vLen, hlen] at hlt

theorem claim_C1_witness :
    forward barkPipe (fun _ _ _ => .vNone)
        (fun mi _ => dictGet mi "history_prompt")
        [("input_ids", .vTensor [.vInt 1, .vInt 2, .vInt 3]),
         ("history_prompt",
          .vTensor [.vTensor [.vInt 10], .vTensor [.vInt 20], .vTensor [.vInt 30]])]
        []
      = .vTensor [.vInt 10]
    ∧ forward barkPipe (fun _ _ _ => .vNone)
        (fun mi _ => dictGet mi "history_prompt")
        [("input_ids", .vTensor [.vInt 1]),
         ("history_prompt", .vTensor [.vTensor [.vInt 10]])]
        []
      = .vTensor [.vTensor [.vInt 10]] := by
  have h := claim_C1 barkPipe (fun _ _ _ => .vNone)
    (fun mi _ => dictGet mi "history_prompt") [] rfl rfl
  constructor
  · have h1 := (h.1
      [("input_ids", .vTensor [.vInt 1, .vInt 2, .vInt 3]),
       ("history_prompt",
        .vTensor [.vTensor [.vInt 10], .vTensor [.vInt 20], .vTensor [.vInt 30]])]
      [.vInt 1, .vInt 2, .vInt 3] (.vTensor [.vInt 10])
      [.vTensor [.vInt 20], .vTensor [.vInt 30]]
      (by decide) (by decide) (by decide)).1
    rw [h1]; decide
  · have h2 := h.2
      [("input_ids", .vTensor [.vInt 1]),
       ("history_prompt", .vTensor [.vTensor [.vInt 10]])]
      [.vInt 1] (by decide) (by decide)
    rw [h2]; decide

/-- A concrete `speecht5` adapter state. -/
def speecht5Pipe : TextToSpeechPipeline :=
  { framework := "pt", model_type := "speecht5", is_speecht5 := true,
    only_one_speaker_embeddings := false, processor := .vNone,
    vocoder := .vocGan { config := { sampling_rate := 16000 } },
    sampling_rate := .vInt 16000 }

/-- A stub of the external CMU-ARCTIC dataset: record 7305 carries an
`"xvector"` field. -/
def arcticStub : String → String → Nat → Dict :=
  fun _ _ i => if i == 7305 then [("xvector", .vInt 42)] else []

/-- C6: for the `speecht5` family, whenever `preprocess` runs without a
conditioning value, the prepared `"speaker_embeddings"` entry is the fixed
default vector built from record 7305, field `"xvector"`, of the
`Matthijs/cmu-arctic-xvectors` validation split — the same record on
every call, independent of text, processor and extra arguments. -/
theorem claim_C6 (p : TextToSpeechPipeline)
    (processorRun : Val → Dict → Dict)
    (load_dataset : String → String → Nat → Dict)
    (text : Val) (kwargs : Dict)
    (h5 : p.is_speecht5 = true) :
    dictGet (preprocess p processorRun load_dataset text .vNone kwargs)
        "speaker_embeddings"
      = .vTensor
          [dictGet (load_dataset "Matthijs/cmu-arctic-xvectors" "validation" 7305)
            "xvector"] := by
  have hne : ("input_ids" == "speaker_embeddings") = false := by decide
  simp [preprocess, h5, dictGet, hne]

theorem claim_C6_witness :
    dictGet (preprocess speecht5Pipe (fun _ _ => []) arcticStub (.vStr "hi") .vNone [])
        "speaker_embeddings" = .vTensor [.vInt 42] := by
  have h := claim_C6 speecht5Pipe (fun _ _ => []) arcticStub (.vStr "hi") [] rfl
  rw [h]; decide

/-- C7: `_sanitize_parameters` is a pure partition of the call's keyword
arguments — the `"speaker_embeddings"` value goes to preprocessing, every
other pair goes unchanged into the forward parameters, nothing goes to
postprocessing — and `_forward` hands its received keyword dict to the
backend's `generate` unchanged, so unrecognized parameters reach the
generation entry point as supplied. -/
theorem claim_C7 (generate_kwargs : Dict) :
    sanitize_parameters generate_kwargs =
      ([("speaker_embeddings", dictGet generate_kwargs "speaker_embeddings")],
       generate_kwargs.filter (fun kv => !(kv.1 == "speaker_embeddings")),
       [])
    ∧ (∀ (p : TextToSpeechPipeline)
        (generate_speech : Val → Val → VocoderArg → Val)
        (generate : Dict → Dict → Val) (model_inputs : Dict),
        p.is_speecht5 = false →
        ∃ prepared,
          forward p generate_speech generate model_inputs
              (sanitize_parameters generate_kwargs).2.1
            = generate prepared (sanitize_parameters generate_kwargs).2.1) := by
  constructor
  · have hfil : ∀ kv ∈ generate_kwargs,
        (!(dictHasKey
            (dictSet [] "speaker_embeddings" (dictGet generate_kwargs "speaker_embeddings"))
            kv.1))
          = (!(kv.1 == "speaker_embeddings")) := by
      intro kv _
      simp [dictSet, dictHasKey, strBeqComm "speaker_embeddings" kv.1]
    simp only [sanitize_parameters]
    rw [List.filter_congr hfil]
    rfl
  · intro p generate_speech generate model_inputs h5
    refine ⟨if p.only_one_speaker_embeddings then
        (let speaker_embeddings_key :=
          lookupKeyD SPEAKER_EMBEDDINGS_KEY_MAPPING p.model_type "speaker_embeddings"
        if 1 < vLen (dictGet model_inputs "input_ids") ∧
            dictGet model_inputs speaker_embeddings_key ≠ Val.vNone then
          dictSet model_inputs speaker_embeddings_key
            (vFirst (dictGet model_inputs speaker_embeddings_key))
        else model_inputs)
      else model_inputs, ?_⟩
    simp only [forward, h5, Bool.false_eq_true, if_false]

theorem claim_C7_witness :
    sanitize_parameters [("speaker_embeddings", .vStr "v2"), ("temperature", .vInt 1)] =
      ([("speaker_embeddings", .vStr "v2")], [("temperature", .vInt 1)], [])
    ∧ ∃ _prepared : Dict,
        forward barkPipe (fun _ _ _ => .vNone)
            (fun _ kw => dictGet kw "temperature")
            [("input_ids", .vTensor [.vInt 1])]
            [("temperature", .vInt 1)]
          = .vInt 1 := by
  have h := claim_C7 [("speaker_embeddings", .vStr "v2"), ("temperature", .vInt 1)]
  refine ⟨h.1.trans (by decide), ?_⟩
  obtain ⟨pr, hpr⟩ := h.2 barkPipe (fun _ _ _ => .vNone)
    (fun _ kw => dictGet kw "temperature")
    [("input_ids", .vTensor [.vInt 1])] rfl
  have hs : (sanitize_parameters
      [("speaker_embeddings", Val.vStr "v2"), ("temperature", Val.vInt 1)]).2.1
      = [("temperature", Val.vInt 1)] := by decide
  rw [hs] at hpr
  refine ⟨pr, ?_⟩
  rw [hpr]
  decide

/-- C5 fails on the code: `preprocess` computes the lookup-table key and
discards it. For the `bark` family the table's entry is
`"history_prompt"`, yet the processor receives the conditioning value
under the hardcoded `"voice_preset"`, with nothing under the table's
key. -/
theorem claim_C5_counterexample :
    preprocess barkPipe (fun _ args => args) (fun _ _ _ => [])
        (.vStr "hello") (.vStr "v2/en_speaker_1") []
      = [("voice_preset", .vStr "v2/en_speaker_1")]
    ∧ lookupKeyD SPEAKER_EMBEDDINGS_KEY_MAPPING "bark" "speaker_embeddings"
        = "history_prompt"
    ∧ dictGet [("voice_preset", .vStr "v2/en_speaker_1")] "history_prompt"
        = .vNone := ⟨rfl, rfl, rfl⟩

/-- C5 (amended): for every non-vocoder-dependent family, `preprocess`
passes the conditioning value to the input processor under a hardcoded
key — `"voice_preset"` when the family is `bark`, the generic
`"speaker_embeddings"` otherwise; the lookup-table result is computed but
discarded and does not determine the key. -/
theorem claim_C5_amended (p : TextToSpeechPipeline)
    (processorRun : Val → Dict → Dict)
    (load_dataset : String → String → Nat → Dict)
    (text speaker_embeddings : Val) (kwargs : Dict)
    (h5 : p.is_speecht5 = false) :
    ∃ args,
      preprocess p processorRun load_dataset text speaker_embeddings kwargs
        = processorRun text args
      ∧ dictGet args
          (if p.model_type == "bark" then "voice_preset" else "speaker_embeddings")
          = speaker_embeddings := by
  by_cases hb : (p.model_type == "bark") = true
  · refine ⟨("voice_preset", speaker_embeddings) :: kwargs, ?_, ?_⟩
    · simp [preprocess, h5, hb, dictSet]
    · simp [hb, dictGet]
  · refine ⟨("speaker_embeddings", speaker_embeddings) :: kwargs, ?_, ?_⟩
    · simp [preprocess, h5, hb, dictSet]
    · simp [hb, dictGet]

theorem claim_C5_amended_witness :
    ∃ args,
      preprocess barkPipe (fun _ args => args) (fun _ _ _ => [])
          (.vStr "hello") (.vStr "v2/en_speaker_1") []
        = (fun _ args => args : Val → Dict → Dict) (.vStr "hello") args
      ∧ dictGet args
          (if barkPipe.model_type == "bark" then "voice_preset" else "speaker_embeddings")
          = .vStr "v2/en_speaker_1" :=
  claim_C5_amended barkPipe (fun _ args => args) (fun _ _ _ => [])
    (.vStr "hello") (.vStr "v2/en_speaker_1") [] rfl

/-- A concrete non-`bark`, non-`speecht5` adapter state. -/
def vitsPipe : TextToSpeechPipeline :=
  { framework := "pt", model_type := "vits", is_speecht5 := false,
    only_one_speaker_embeddings := false, processor := .vNone,
    vocoder := .vocNone, sampling_rate := .vInt 16000 }

/-- C10: for a non-`speecht5` family with no conditioning value supplied,
`preprocess` still calls the input processor with the family's
conditioning key explicitly present and bound to `None`; no default is
drawn (the dataset fallback is exclusive to `speecht5`). -/
theorem claim_C10 (p : TextToSpeechPipeline)
    (processorRun : Val → Dict → Dict)
    (load_dataset : String → String → Nat → Dict)
    (text : Val) (kwargs : Dict)
    (h5 : p.is_speecht5 = false) :
    ∃ args,
      preprocess p processorRun load_dataset text .vNone kwargs
        = processorRun text args
      ∧ dictHasKey args
          (if p.model_type == "bark" then "voice_preset" else "speaker_embeddings")
          = true
      ∧ dictGet args
          (if p.model_type == "bark" then "voice_preset" else "speaker_embeddings")
          = .vNone := by
  by_cases hb : (p.model_type == "bark") = true
  · refine ⟨("voice_preset", Val.vNone) :: kwargs, ?_, ?_, ?_⟩
    · simp [preprocess, h5, hb, dictSet]
    · simp [hb, dictHasKey]
    · simp [hb, dictGet]
  · refine ⟨("speaker_embeddings", Val.vNone) :: kwargs, ?_, ?_, ?_⟩
    · simp [preprocess, h5, hb, dictSet]
    · simp [hb, dictHasKey]
    · simp [hb, dictGet]

theorem claim_C10_witness :
    ∃ args,
      preprocess vitsPipe (fun _ args => args) (fun _ _ _ => [])
          (.vStr "hi") .vNone []
        = (fun _ args => args : Val → Dict → Dict) (.vStr "hi") args
      ∧ dictHasKey args
          (if vitsPipe.model_type == "bark" then "voice_preset" else "speaker_embeddings")
          = true
      ∧ dictGet args
          (if vitsPipe.model_type == "bark" then "voice_preset" else "speaker_embeddings")
          = .vNone :=
  claim_C10 vitsPipe (fun _ args => args) (fun _ _ _ => [])
    (.vStr "hi") [] rfl

end TTS
